import Mathlib

/-!
Verification of the NSE data gateway (`src/main.py`) against its design
specification.

The embedding below follows the source line by line:

* `DataFrame` models a pandas data frame as a list of column labels plus a
  list of rows; each row is an association list from column label to cell
  value (a cell absent from a row models a NaN-filled cell, rendered `""`).
* `HTTPException` and `PyExc` model the FastAPI `HTTPException` type and the Python
  exception hierarchy relevant to the handlers (`except ValueError` /
  `except Exception`); `pyStr` models the Python rendering `str(e)`.
* The upstream library calls `stock_df` / `index_df` are external
  collaborators; each gateway call consumes at most one response, so the
  response is passed in as an oracle value `Except PyExc (Option DataFrame)`
  (`.error` = the call raised, `.ok none` = returned `None`).
* `pd.to_datetime(..).dt.strftime("%Y-%m-%d")` is an external date formatter,
  passed in as `fmt : String → Except String String` (`.error` = it raised a
  `ValueError`).
* The MongoDB collection is modelled by `CacheState`: either `disabled`
  (`stock_cache is None`) or `enabled` with the current document list of a
  live collection.  A pymongo collection does not implement truth-value
  testing — `bool(collection)` raises `NotImplementedError` — so the guards
  `if stock_cache:` on lines 103 and 163 raise whenever a live collection
  is configured; `cacheTruth` models that test.  A stored payload is either
  a serialized record list or an undecodable blob (`json.loads` raises on
  it).
* `Outcome` records, besides the request result, how many upstream fetches,
  cache reads and cache writes the call performed, and the final document
  list of the cache — the observables the specification talks about.
-/

deriving instance DecidableEq for Except

namespace Jugaad

/-- Calendar dates: all the gateway needs is a linear order and an injective
string rendering (`str(date)`), so dates are embedded as `Nat`. -/
abbrev Date := Nat

/-- A cell value; prices and volumes are carried opaquely as strings since the
gateway never computes with them. -/
abbrev Cell := String

/-- A pandas data frame: column labels and rows keyed by column label. -/
structure DataFrame where
  columns : List String
  rows : List (List (String × Cell))
deriving DecidableEq, Repr

/-- Model of `fastapi.HTTPException(status_code=..., detail=...)`. -/
structure HTTPException where
  status_code : Nat
  detail : String
deriving DecidableEq, Repr

/-- The Python exceptions the handlers in `main.py` distinguish:
`HTTPException`, `ValueError`, and any other `Exception`. -/
inductive PyExc where
  | http (e : HTTPException)
  | valueError (msg : String)
  | other (msg : String)
deriving DecidableEq, Repr

/-- Model of the Python rendering `str(e)`; for `HTTPException` it renders the string `"<status>: <detail>"`. -/
def pyStr : PyExc → String
  | .http e => toString e.status_code ++ ": " ++ e.detail
  | .valueError m => m
  | .other m => m

/-- One element of the JSON record list the gateway returns
(`to_dict(orient="records")` over the seven projected columns). -/
structure StockRow where
  DATE : Cell
  SYMBOL : Cell
  OPEN : Cell
  HIGH : Cell
  LOW : Cell
  CLOSE : Cell
  VOLUME : Cell
deriving DecidableEq, Repr

/-- The `data` field of a cache document: `json.dumps` of a record list, or
bytes on which `json.loads` raises. -/
inductive CachePayload where
  | records (rs : List StockRow)
  | corrupt (blob : String)
deriving DecidableEq, Repr

/-- One MongoDB document in the `stock_data` collection, as inserted by
`get_stock_data` (note: no record-kind field). -/
structure CacheDoc where
  symbol : String
  from_date : String
  to_date : String
  data : CachePayload
deriving DecidableEq, Repr

/-- The module-level `stock_cache`: `None` (disabled — no MONGO_URL, or the
startup ping failed) or a live pymongo Collection holding the given
documents. -/
inductive CacheState where
  | disabled
  | enabled (docs : List CacheDoc)
deriving DecidableEq, Repr

/-- The documents currently in the store (none when disabled). -/
def CacheState.docs : CacheState → List CacheDoc
  | .disabled => []
  | .enabled ds => ds

/-- The message of the `NotImplementedError` a pymongo Collection raises on
truth-value testing (`Collection.__bool__`). -/
def collection_bool_msg : String :=
  "Collection objects do not implement truth value testing or bool(). Please compare with None instead: collection is not None"

/-- The Python truth test `if stock_cache:` (lines 103 and 163): `None` is
falsy, but a pymongo Collection does not implement truth testing and raises
`NotImplementedError` instead of yielding a Bool. -/
def cacheTruth : CacheState → Except PyExc Bool
  | .disabled => .ok false
  | .enabled _ => .error (.other collection_bool_msg)

/-- What one `get_stock_data` call did: its result (`.error e` = the handler
raised `e`; an `.error (.http _)` is mapped by FastAPI to that status, any
other escaped exception becomes a generic 500), plus the number of upstream
fetches, cache reads (`find_one` calls) and cache writes (`insert_one`
calls), and the final document list of the cache. -/
structure Outcome where
  result : Except PyExc (List StockRow)
  fetches : Nat
  cacheReads : Nat
  cacheWrites : Nat
  cacheDocs : List CacheDoc
deriving DecidableEq, Repr

/-- Model of the Python method `str.upper()` (ASCII range, which covers every symbol and column
label the gateway sees), written structurally over the character list so that
closed instances evaluate. -/
def pyUpper (s : String) : String := ⟨s.data.map Char.toUpper⟩

/-- Byte-lexicographic strict comparison of character lists. -/
def cellLtb : List Char → List Char → Bool
  | [], [] => false
  | [], _ :: _ => true
  | _ :: _, [] => false
  | a :: as, b :: bs =>
    if a.val < b.val then true
    else if b.val < a.val then false
    else cellLtb as bs

/-- Strict order on date cells: byte-lexicographic, which on equal-format
ISO-8601 date strings coincides with chronological order. -/
def dateLtb (a b : Cell) : Bool := cellLtb a.data b.data

/-- Cell lookup by column label; an absent cell reads as `""` (NaN). -/
def lookupCell (r : List (String × Cell)) (c : String) : Cell :=
  match r.find? (fun kv => kv.1 == c) with
  | some kv => kv.2
  | none => ""

/-- Column assignment on one row (column labels in a frame are unique):
replace the cell carrying the label if present, else append it. -/
def setCell : List (String × Cell) → String → Cell → List (String × Cell)
  | [], c, v => [(c, v)]
  | kv :: r, c, v => if kv.1 == c then (c, v) :: r else kv :: setCell r c v

/-- Model of `df.columns = [col.upper() for col in df.columns]`: relabels the axis, so
cells are afterwards addressed by the uppercased labels. -/
def upperCols (df : DataFrame) : DataFrame :=
  ⟨df.columns.map pyUpper,
   df.rows.map (fun r => r.map (fun kv => (pyUpper kv.1, kv.2)))⟩

/-- Model of `df[cols]`: project onto the given columns, in the given order. -/
def project (df : DataFrame) (cols : List String) : DataFrame :=
  ⟨cols, df.rows.map (fun r => cols.map (fun c => (c, lookupCell r c)))⟩

/-- Model of `df.rename(columns=m)`: relabel columns through the mapping. -/
def renameCols (df : DataFrame) (m : List (String × String)) : DataFrame :=
  let ren := fun c =>
    match m.find? (fun kv => kv.1 == c) with
    | some kv => kv.2
    | none => c
  ⟨df.columns.map ren, df.rows.map (fun r => r.map (fun kv => (ren kv.1, kv.2)))⟩

/-- Model of `df["SYMBOL"] = symbol`: constant column assignment. -/
def setColConst (df : DataFrame) (c : String) (v : Cell) : DataFrame :=
  ⟨if df.columns.contains c then df.columns else df.columns ++ [c],
   df.rows.map (fun r => setCell r c v)⟩

/-- Model of `df["DATE"] = pd.to_datetime(df["DATE"]).dt.strftime("%Y-%m-%d")`: apply
the external date formatter to the DATE cell of every row; a formatter error
is the `ValueError` pandas raises on an unparseable date. -/
def strftime_col (fmt : String → Except String String) (df : DataFrame) :
    Except String DataFrame := do
  let rows ← df.rows.mapM (fun r => do
    let v ← fmt (lookupCell r "DATE")
    pure (setCell r "DATE" v))
  pure ⟨df.columns, rows⟩

/-- The dictionary `ch_col_map` from `main.py` (layout A, "prefixed"), in source order. -/
def ch_col_map : List (String × String) :=
  [("CH_TIMESTAMP", "DATE"),
   ("CH_OPENING_PRICE", "OPEN"),
   ("CH_TRADE_HIGH_PRICE", "HIGH"),
   ("CH_TRADE_LOW_PRICE", "LOW"),
   ("CH_CLOSING_PRICE", "CLOSE"),
   ("CH_TOT_TRADED_QTY", "VOLUME")]

/-- The keys of `simple_col_map` from `main.py` (layout B, "simple"); the map
itself is the identity on these names. -/
def simple_cols : List String :=
  ["DATE", "OPEN", "HIGH", "LOW", "CLOSE", "VOLUME"]

/-- The projection `df[["DATE","SYMBOL","OPEN","HIGH","LOW","CLOSE","VOLUME"]]`
applied before `to_dict`. -/
def final_cols : List String :=
  ["DATE", "SYMBOL", "OPEN", "HIGH", "LOW", "CLOSE", "VOLUME"]

/-- Lines 122-154 of `main.py`: uppercase the column labels, try the full
prefixed layout first, then the full simple layout, else raise
`HTTPException(500, "Unexpected data format ...")` naming the columns. -/
def normalize_columns (df : DataFrame) : Except HTTPException DataFrame :=
  let df := upperCols df
  if ch_col_map.all (fun kv => df.columns.contains kv.1) then
    .ok (renameCols (project df (ch_col_map.map Prod.fst)) ch_col_map)
  else if simple_cols.all (fun c => df.columns.contains c) then
    .ok (project df simple_cols)
  else
    let cols := df.columns
    .error ⟨500, "Unexpected data format received from NSE. Columns: " ++ toString cols⟩

/-- Convert one (already projected) row into the response record shape. -/
def toStockRow (r : List (String × Cell)) : StockRow :=
  ⟨lookupCell r "DATE", lookupCell r "SYMBOL", lookupCell r "OPEN",
   lookupCell r "HIGH", lookupCell r "LOW", lookupCell r "CLOSE",
   lookupCell r "VOLUME"⟩

/-- Model of `to_dict(orient="records")`. -/
def toRecords (df : DataFrame) : List StockRow :=
  df.rows.map toStockRow

/-- The detail of the 404 raised on `df is None or df.empty` (line 120). -/
def no_data_detail (symbol : String) (from_date to_date : Date) : String :=
  "No data found for " ++ symbol ++ " between " ++ toString from_date ++
    " and " ++ toString to_date

/-- The body of the `try:` block of `get_stock_data` up to the computation of
`result` (lines 117-160): fetch, emptiness check, column normalization, date
formatting, symbol column; any raised exception surfaces as `.error`. -/
def fetch_and_normalize (fetchResp : Except PyExc (Option DataFrame))
    (fmt : String → Except String String) (symbol : String)
    (from_date to_date : Date) : Except PyExc (List StockRow) :=
  match fetchResp with
  | .error e => .error e
  | .ok none => .error (.http ⟨404, no_data_detail symbol from_date to_date⟩)
  | .ok (some df) =>
    if df.rows.isEmpty then
      .error (.http ⟨404, no_data_detail symbol from_date to_date⟩)
    else
      match normalize_columns df with
      | .error e => .error (.http e)
      | .ok df1 =>
        match strftime_col fmt df1 with
        | .error m => .error (.valueError m)
        | .ok df2 =>
          let df3 := setColConst df2 "SYMBOL" symbol
          .ok (toRecords (project df3 final_cols))

/-- The `except ValueError` / `except Exception` handlers of `get_stock_data`
(lines 176-181): every exception escaping the `try:` body — including an
`HTTPException` raised inside it — is re-raised as a 500 wrapping `str(e)`. -/
def wrap_exc (symbol : String) : PyExc → PyExc
  | .valueError m =>
      .http ⟨500, "Data parse error from NSE for " ++ symbol ++ ": " ++ m⟩
  | e =>
      .http ⟨500, "Error fetching stock data: " ++ pyStr e⟩

/-- Model of `find_one` with the three key fields symbol, from_date, to_date:
first document (natural order) matching the three key fields. -/
def find_cached (docs : List CacheDoc) (symbol : String)
    (from_date to_date : Date) : Option CacheDoc :=
  docs.find? (fun d =>
    d.symbol == symbol && d.from_date == toString from_date &&
      d.to_date == toString to_date)

/-- Lines 116-181 of `main.py` as one step: run the `try:` body; on success
line 163 re-tests `if stock_cache:` — on a live Collection that test itself
raises and the blanket handler turns it into a 500 (the `insert_one` arm is
unreachable because no `CacheState` is truthy); with no cache the write is
skipped.  Applies the exception handlers to anything raised.  Returns
(result, number of `insert_one` calls, final document list). -/
def fetch_phase (fetchResp : Except PyExc (Option DataFrame))
    (fmt : String → Except String String) (symbol : String)
    (from_date to_date : Date) (cache : CacheState) :
    Except PyExc (List StockRow) × Nat × List CacheDoc :=
  match fetch_and_normalize fetchResp fmt symbol from_date to_date with
  | .error e => (.error (wrap_exc symbol e), 0, cache.docs)
  | .ok result =>
    match cacheTruth cache with
    | .error e => (.error (wrap_exc symbol e), 0, cache.docs)
    | .ok true =>
        (.ok result, 1,
         cache.docs ++ [⟨symbol, toString from_date, toString to_date, .records result⟩])
    | .ok false => (.ok result, 0, cache.docs)

/-- Lines 102-181 of `main.py`, after validation: the `if stock_cache:`
guard of line 103 runs outside any `try:`, so with a live Collection its
`NotImplementedError` escapes and fails the request before `find_one`; the
lookup / hit / corrupt-hit / miss dispatch of lines 104-113 is kept below as
the truthy arm, which no `CacheState` can reach. -/
def stock_cache_phase (fetchResp : Except PyExc (Option DataFrame))
    (fmt : String → Except String String)
    (symbol : String) (from_date to_date : Date) (cache : CacheState) : Outcome :=
  match cacheTruth cache with
  | .error e => ⟨.error e, 0, 0, 0, cache.docs⟩
  | .ok true =>
    match find_cached cache.docs symbol from_date to_date with
    | some d =>
      match d.data with
      | .records rs => ⟨.ok rs, 0, 1, 0, cache.docs⟩
      | .corrupt _ =>
        let p := fetch_phase fetchResp fmt symbol from_date to_date cache
        ⟨p.1, 1, 1, p.2.1, p.2.2⟩
    | none =>
      let p := fetch_phase fetchResp fmt symbol from_date to_date cache
      ⟨p.1, 1, 1, p.2.1, p.2.2⟩
  | .ok false =>
    let p := fetch_phase fetchResp fmt symbol from_date to_date cache
    ⟨p.1, 1, 0, p.2.1, p.2.2⟩

/-- Route `GET /stock-data/` (`get_stock_data`, lines 83-181).  Field order of the
returned `Outcome`: result, fetches, cacheReads, cacheWrites, cacheDocs. -/
def get_stock_data (fno_symbols : List String)
    (fetchResp : Except PyExc (Option DataFrame))
    (fmt : String → Except String String)
    (cache : CacheState)
    (symbol : String) (from_date to_date : Date) (fno_only : Bool) : Outcome :=
  let symbol := pyUpper symbol
  if from_date > to_date then
    ⟨.error (.http ⟨400,
        "`from_date` (" ++ toString from_date ++ ") cannot be after `to_date` (" ++
          toString to_date ++ ")"⟩), 0, 0, 0, cache.docs⟩
  else if fno_only && !(fno_symbols.contains symbol) then
    ⟨.error (.http ⟨400, symbol ++ " is not in the F&O stock list."⟩),
     0, 0, 0, cache.docs⟩
  else
    stock_cache_phase fetchResp fmt symbol from_date to_date cache

/-- What one `get_index_data` call did; the route touches no cache, so only
the fetch count accompanies the result (cache counters kept for comparison
with the stock route — they are computed by the route, constantly zero). -/
structure IndexOutcome where
  result : Except PyExc (List StockRow)
  fetches : Nat
  cacheReads : Nat
  cacheWrites : Nat
deriving DecidableEq, Repr

/-- Route `GET /index-data/` (`get_index_data`, lines 185-203): no date validation,
no cache; only the `index_df` call is guarded by a handler, the emptiness 404
is raised outside any `try:`, and a `strftime` error escapes unhandled. -/
def get_index_data (fetchResp : Except PyExc DataFrame)
    (fmt : String → Except String String)
    (symbol : String) (from_date to_date : Date) : IndexOutcome :=
  let symbol := pyUpper symbol
  match fetchResp with
  | .error e =>
    ⟨.error (.http ⟨500, "Error fetching index data: " ++ pyStr e⟩), 1, 0, 0⟩
  | .ok df =>
    if df.rows.isEmpty then
      ⟨.error (.http ⟨404,
          "No index data found for " ++ symbol ++ " between " ++
            toString from_date ++ " and " ++ toString to_date⟩), 1, 0, 0⟩
    else
      match strftime_col fmt df with
      | .error m => ⟨.error (.valueError m), 1, 0, 0⟩
      | .ok df2 =>
        let df3 := setColConst df2 "SYMBOL" symbol
        ⟨.ok (toRecords (project df3 final_cols)), 1, 0, 0⟩

/-! Concrete fixtures used to exercise the gateway on closed inputs. -/

/-- A date formatter that accepts every cell unchanged (all dates parse). -/
def fmtOk : String → Except String String := fun s => .ok s

/-- One raw row in the simple (layout B) shape. -/
def rowOne : List (String × Cell) :=
  [("DATE", "1"), ("OPEN", "10"), ("HIGH", "11"), ("LOW", "9"),
   ("CLOSE", "10"), ("VOLUME", "100")]

/-- A second raw row whose date precedes the date of `rowOne`. -/
def rowZero : List (String × Cell) :=
  [("DATE", "0"), ("OPEN", "20"), ("HIGH", "21"), ("LOW", "19"),
   ("CLOSE", "20"), ("VOLUME", "200")]

/-- A one-row upstream frame in the simple layout. -/
def dfOne : DataFrame := ⟨simple_cols, [rowOne]⟩

/-- A two-row upstream frame whose rows arrive in descending date order. -/
def dfDesc : DataFrame := ⟨simple_cols, [rowOne, rowZero]⟩

end Jugaad

namespace Jugaad

/-! Helper lemmas about `fetch_phase` and `stock_cache_phase`: no reachable
path writes to the store (the truthy arm of the line-163 test is dead), and
each cache shape has one dispatch equation. -/

lemma fetch_phase_fst_disabled (fr : Except PyExc (Option DataFrame))
    (fmt : String → Except String String) (s : String) (fd td : Date) :
    (fetch_phase fr fmt s fd td .disabled).1
      = (fetch_and_normalize fr fmt s fd td).mapError (wrap_exc s) := by
  unfold fetch_phase
  cases fetch_and_normalize fr fmt s fd td <;> rfl

lemma fetch_phase_writes_zero (fr : Except PyExc (Option DataFrame))
    (fmt : String → Except String String) (s : String) (fd td : Date)
    (cache : CacheState) :
    (fetch_phase fr fmt s fd td cache).2.1 = 0 := by
  unfold fetch_phase
  cases cache <;> cases fetch_and_normalize fr fmt s fd td <;> rfl

lemma fetch_phase_docs_const (fr : Except PyExc (Option DataFrame))
    (fmt : String → Except String String) (s : String) (fd td : Date)
    (cache : CacheState) :
    (fetch_phase fr fmt s fd td cache).2.2 = cache.docs := by
  unfold fetch_phase
  cases cache <;> cases fetch_and_normalize fr fmt s fd td <;> rfl

lemma stock_cache_phase_disabled (fr : Except PyExc (Option DataFrame))
    (fmt : String → Except String String) (s : String) (fd td : Date) :
    stock_cache_phase fr fmt s fd td .disabled
      = ⟨(fetch_phase fr fmt s fd td .disabled).1, 1, 0,
         (fetch_phase fr fmt s fd td .disabled).2.1,
         (fetch_phase fr fmt s fd td .disabled).2.2⟩ := rfl

lemma stock_cache_phase_enabled (fr : Except PyExc (Option DataFrame))
    (fmt : String → Except String String) (s : String) (fd td : Date)
    (docs : List CacheDoc) :
    stock_cache_phase fr fmt s fd td (.enabled docs)
      = ⟨.error (.other collection_bool_msg), 0, 0, 0, docs⟩ := rfl

/-! Lemmas tracing the SYMBOL column through the normalization pipeline. -/

lemma lookupCell_setCell (r : List (String × Cell)) (c : String) (v : Cell) :
    lookupCell (setCell r c v) c = v := by
  induction r with
  | nil => simp [setCell, lookupCell, List.find?]
  | cons kv r ih =>
    by_cases h : (kv.1 == c) = true
    · simp [setCell, h, lookupCell, List.find?]
    · simp only [setCell, h, Bool.false_eq_true, if_false]
      simpa [lookupCell, List.find?, h] using ih

lemma toStockRow_proj (q : List (String × Cell)) :
    toStockRow (final_cols.map (fun c => (c, lookupCell q c)))
      = ⟨lookupCell q "DATE", lookupCell q "SYMBOL", lookupCell q "OPEN",
         lookupCell q "HIGH", lookupCell q "LOW", lookupCell q "CLOSE",
         lookupCell q "VOLUME"⟩ := rfl

lemma toRecords_symbol (df : DataFrame) (s : String) :
    ∀ r ∈ toRecords (project (setColConst df "SYMBOL" s) final_cols), r.SYMBOL = s := by
  intro r hr
  unfold toRecords project setColConst at hr
  simp only [List.mem_map] at hr
  obtain ⟨q, hq, rfl⟩ := hr
  obtain ⟨row, hrow, rfl⟩ := hq
  obtain ⟨row0, _, rfl⟩ := hrow
  rw [toStockRow_proj]
  exact lookupCell_setCell row0 "SYMBOL" s

lemma fetch_and_normalize_symbol (fr : Except PyExc (Option DataFrame))
    (fmt : String → Except String String) (s : String) (fd td : Date)
    (rs : List StockRow)
    (h : fetch_and_normalize fr fmt s fd td = .ok rs) :
    ∀ r ∈ rs, r.SYMBOL = s := by
  unfold fetch_and_normalize at h
  cases fr with
  | error e => simp at h
  | ok odf =>
    cases odf with
    | none => simp at h
    | some df =>
      by_cases hemp : df.rows.isEmpty
      · simp [hemp] at h
      · simp only [hemp, Bool.false_eq_true, if_false] at h
        cases hnc : normalize_columns df with
        | error e => simp [hnc] at h
        | ok df1 =>
          simp only [hnc] at h
          cases hsf : strftime_col fmt df1 with
          | error m => simp [hsf] at h
          | ok df2 =>
            simp only [hsf] at h
            cases h
            exact toRecords_symbol df2 s

lemma stock_disabled_ok (fs : List String) (fr : Except PyExc (Option DataFrame))
    (fmt : String → Except String String) (s : String) (fd td : Date) (fo : Bool)
    (rs : List StockRow)
    (h : (get_stock_data fs fr fmt .disabled s fd td fo).result = .ok rs) :
    fetch_and_normalize fr fmt (pyUpper s) fd td = .ok rs := by
  unfold get_stock_data at h
  by_cases h1 : fd > td
  · rw [if_pos h1] at h
    exact absurd h (by simp)
  · rw [if_neg h1] at h
    by_cases h2 : (fo && !(fs.contains (pyUpper s))) = true
    · rw [if_pos h2] at h
      exact absurd h (by simp)
    · rw [if_neg h2] at h
      have h3 : (fetch_phase fr fmt (pyUpper s) fd td .disabled).1 = .ok rs := h
      rw [fetch_phase_fst_disabled] at h3
      cases hf : fetch_and_normalize fr fmt (pyUpper s) fd td with
      | error e => rw [hf] at h3; simp [Except.mapError] at h3
      | ok rs0 => rw [hf] at h3; simp [Except.mapError] at h3; exact congrArg Except.ok h3

lemma index_ok_symbol (fr : Except PyExc DataFrame)
    (fmt : String → Except String String) (s : String) (fd td : Date)
    (rs : List StockRow)
    (h : (get_index_data fr fmt s fd td).result = .ok rs) :
    ∀ r ∈ rs, r.SYMBOL = pyUpper s := by
  unfold get_index_data at h
  cases fr with
  | error e => simp at h
  | ok df =>
    by_cases hemp : df.rows.isEmpty
    · simp [hemp] at h
    · simp only [hemp, Bool.false_eq_true, if_false] at h
      cases hsf : strftime_col fmt df with
      | error m => simp [hsf] at h
      | ok df2 =>
        simp only [hsf] at h
        cases h
        exact toRecords_symbol df2 (pyUpper s)

/-- C4 counterexample: the gateway performs no sorting — upstream rows in
descending date order are returned in that same order, so a successful call
is not sorted strictly ascending by date (`dateLtb` is chronological order on
the date cells). -/
theorem C4_counterexample_unsorted :
    (get_stock_data [] (.ok (some dfDesc)) fmtOk .disabled "INFY" 1 2 false).result
      = .ok [⟨"1", "INFY", "10", "11", "9", "10", "100"⟩,
             ⟨"0", "INFY", "20", "21", "19", "20", "200"⟩] ∧
    dateLtb "1" "0" = false := by
  refine ⟨by decide, by decide⟩

/-- C4 amended: every record of a successful fresh-fetch response (stock with
the cache disabled, and every index response) carries the uppercased request
symbol; no ordering of the records is established by the gateway. -/
theorem C4_amended_symbol_attached :
    (∀ fs fr fmt s fd td fo rs,
       (get_stock_data fs fr fmt .disabled s fd td fo).result = .ok rs →
       ∀ r ∈ rs, r.SYMBOL = pyUpper s) ∧
    (∀ fr fmt s fd td rs,
       (get_index_data fr fmt s fd td).result = .ok rs →
       ∀ r ∈ rs, r.SYMBOL = pyUpper s) :=
  ⟨fun fs fr fmt s fd td fo rs h =>
      fetch_and_normalize_symbol fr fmt (pyUpper s) fd td rs
        (stock_disabled_ok fs fr fmt s fd td fo rs h),
   fun fr fmt s fd td rs h => index_ok_symbol fr fmt s fd td rs h⟩

/-- C4 amended, witnessed on a concrete request. -/
theorem C4_amended_witness :
    (StockRow.mk "1" "INFY" "10" "11" "9" "10" "100").SYMBOL = "INFY" :=
  C4_amended_symbol_attached.1 [] (.ok (some dfOne)) fmtOk "infy" 1 2 false
    [⟨"1", "INFY", "10", "11", "9", "10", "100"⟩] (by decide)
    ⟨"1", "INFY", "10", "11", "9", "10", "100"⟩ (by simp)

/-- C2 counterexample: an index request with fromDate (5) > toDate (2) is not
rejected with InvalidRequest — the upstream fetch happens and the call
succeeds. -/
theorem C2_counterexample_index_skips_validation :
    (get_index_data (.ok dfOne) fmtOk "NIFTY" 5 2).result
      = .ok [⟨"1", "NIFTY", "10", "11", "9", "10", "100"⟩] ∧
    (get_index_data (.ok dfOne) fmtOk "NIFTY" 5 2).fetches = 1 :=
  ⟨by decide, rfl⟩

/-- C2 amended: stock requests with fromDate > toDate always fail with status
400 carrying both dates in the message, before any cache or upstream access;
index requests perform no date validation and always reach the upstream
fetch. -/
theorem C2_amended_date_validation :
    (∀ fs fr fmt cache s fd td fo, fd > td →
       get_stock_data fs fr fmt cache s fd td fo
         = ⟨.error (.http ⟨400,
              "`from_date` (" ++ toString fd ++ ") cannot be after `to_date` (" ++
                toString td ++ ")"⟩), 0, 0, 0, cache.docs⟩) ∧
    (∀ fr fmt s fd td, (get_index_data fr fmt s fd td).fetches = 1) := by
  constructor
  · intro fs fr fmt cache s fd td fo h
    unfold get_stock_data
    rw [if_pos h]
  · intro fr fmt s fd td
    cases fr with
    | error e => rfl
    | ok df =>
      by_cases hemp : df.rows.isEmpty = true
      · simp [get_index_data, hemp]
      · simp only [get_index_data, hemp, Bool.false_eq_true, if_false]
        cases strftime_col fmt df <;> rfl

/-- C2 amended, witnessed on a concrete out-of-order stock request. -/
theorem C2_amended_witness :
    get_stock_data [] (.ok none) fmtOk .disabled "INFY" 5 2 false
      = ⟨.error (.http ⟨400, "`from_date` (5) cannot be after `to_date` (2)"⟩),
         0, 0, 0, []⟩ :=
  C2_amended_date_validation.1 [] (.ok none) fmtOk .disabled "INFY" 5 2 false (by decide)

/-- C3 counterexample: the cache path surfaces a failure on every request —
with a live cache collection the truth-value test of line 103 raises before
any cache I/O and fails the request, while the identical request succeeds
with the cache absent, so the outcome is not the same as with the cache
disabled. -/
theorem C3_counterexample_cache_crash_surfaces :
    (get_stock_data [] (.ok (some dfOne)) fmtOk (.enabled []) "INFY" 1 2 false).result
      = .error (.other collection_bool_msg) ∧
    (get_stock_data [] (.ok (some dfOne)) fmtOk .disabled "INFY" 1 2 false).result
      = .ok [⟨"1", "INFY", "10", "11", "9", "10", "100"⟩] :=
  ⟨by decide, by decide⟩

/-- C3 amended: no cache I/O exception is ever caught, because none can be
raised — with a configured cache the truth test `if stock_cache:` itself
raises (pymongo collections do not implement truth testing) outside any
handler, so every validated stock request fails with that error, performing
zero fetches, cache reads and cache writes; the handlers around `json.loads`
and `insert_one` guard unreachable code.  Only with the cache absent does a
request proceed, and it then performs no cache operations at all. -/
theorem C3_amended_configured_cache_fails_requests :
    (∀ fs fr fmt docs s fd td fo, ¬ fd > td →
       (fo && !(fs.contains (pyUpper s))) = false →
       get_stock_data fs fr fmt (.enabled docs) s fd td fo
         = ⟨.error (.other collection_bool_msg), 0, 0, 0, docs⟩) ∧
    (∀ fs fr fmt s fd td fo,
       (get_stock_data fs fr fmt .disabled s fd td fo).cacheReads = 0 ∧
       (get_stock_data fs fr fmt .disabled s fd td fo).cacheWrites = 0) := by
  constructor
  · intro fs fr fmt docs s fd td fo h1 h2
    unfold get_stock_data
    rw [if_neg h1, if_neg (by rw [h2]; simp)]
    exact stock_cache_phase_enabled fr fmt (pyUpper s) fd td docs
  · intro fs fr fmt s fd td fo
    unfold get_stock_data
    by_cases h1 : fd > td
    · rw [if_pos h1]
      exact ⟨rfl, rfl⟩
    · rw [if_neg h1]
      by_cases h2 : (fo && !(fs.contains (pyUpper s))) = true
      · rw [if_pos h2]
        exact ⟨rfl, rfl⟩
      · rw [if_neg h2]
        rw [stock_cache_phase_disabled]
        exact ⟨rfl, fetch_phase_writes_zero fr fmt (pyUpper s) fd td .disabled⟩

/-- C3 amended, witnessed on a concrete request with a configured cache. -/
theorem C3_amended_witness :
    get_stock_data [] (.ok (some dfOne)) fmtOk (.enabled []) "INFY" 1 2 false
      = ⟨.error (.other collection_bool_msg), 0, 0, 0, []⟩ :=
  C3_amended_configured_cache_fails_requests.1 [] (.ok (some dfOne)) fmtOk [] "INFY"
    1 2 false (by decide) (by decide)

/-- Shared helper: no call changes the store — every path returns the
documents exactly as found and performs zero `insert_one` calls. -/
lemma get_stock_data_store_unchanged (fs : List String)
    (fr : Except PyExc (Option DataFrame)) (fmt : String → Except String String)
    (cache : CacheState) (s : String) (fd td : Date) (fo : Bool) :
    (get_stock_data fs fr fmt cache s fd td fo).cacheDocs = cache.docs ∧
    (get_stock_data fs fr fmt cache s fd td fo).cacheWrites = 0 := by
  unfold get_stock_data
  by_cases h1 : fd > td
  · rw [if_pos h1]
    exact ⟨rfl, rfl⟩
  · rw [if_neg h1]
    by_cases h2 : (fo && !(fs.contains (pyUpper s))) = true
    · rw [if_pos h2]
      exact ⟨rfl, rfl⟩
    · rw [if_neg h2]
      cases cache with
      | disabled =>
        rw [stock_cache_phase_disabled]
        exact ⟨fetch_phase_docs_const fr fmt (pyUpper s) fd td .disabled,
               fetch_phase_writes_zero fr fmt (pyUpper s) fd td .disabled⟩
      | enabled docs =>
        rw [stock_cache_phase_enabled]
        exact ⟨rfl, rfl⟩

/-- C5 counterexample: a successful index request touches the cache zero
times, so the two record kinds do not both go through the cache under
kind-distinguished keys. -/
theorem C5_counterexample_index_bypasses_cache :
    (get_index_data (.ok dfOne) fmtOk "NIFTY" 1 2).result
      = .ok [⟨"1", "NIFTY", "10", "11", "9", "10", "100"⟩] ∧
    (get_index_data (.ok dfOne) fmtOk "NIFTY" 1 2).cacheReads = 0 ∧
    (get_index_data (.ok dfOne) fmtOk "NIFTY" 1 2).cacheWrites = 0 :=
  ⟨by decide, rfl, rfl⟩

/-- C5 amended: neither record kind goes through the cache — index requests
contain no cache code at all, and stock requests never complete a cache
operation: with a configured cache the truth test raises before the lookup
and with no cache both lookup and store are skipped, so no cache key of any
shape is ever used and the store is never changed.  The only key fields
appearing in the code (the `find_one` filter and the `insert_one` document)
are symbol, from_date and to_date, with no record-kind component. -/
theorem C5_amended_no_cache_traffic :
    (∀ fs fr fmt cache s fd td fo,
       (get_stock_data fs fr fmt cache s fd td fo).cacheDocs = cache.docs ∧
       (get_stock_data fs fr fmt cache s fd td fo).cacheWrites = 0) ∧
    (∀ fr fmt s fd td, (get_index_data fr fmt s fd td).cacheReads = 0 ∧
       (get_index_data fr fmt s fd td).cacheWrites = 0) := by
  constructor
  · intro fs fr fmt cache s fd td fo
    exact get_stock_data_store_unchanged fs fr fmt cache s fd td fo
  · intro fr fmt s fd td
    cases fr with
    | error e => exact ⟨rfl, rfl⟩
    | ok df =>
      by_cases hemp : df.rows.isEmpty = true
      · simp [get_index_data, hemp]
      · simp only [get_index_data, hemp, Bool.false_eq_true, if_false]
        cases strftime_col fmt df <;> exact ⟨rfl, rfl⟩

/-- C6: normalization uppercases all column labels, then tests the full
prefixed layout first — taking precedence even when the names of both layouts are
present — projecting and renaming it onto the canonical columns with values
copied from the prefixed columns; otherwise it tests the full simple layout
and projects it as-is; otherwise it fails with status 500 naming the actual
(uppercased) columns seen.  Successful normalization always yields the full
canonical column set — never an incomplete mapping. -/
theorem C6_normalize_layouts (df : DataFrame) :
    (ch_col_map.all (fun kv => (upperCols df).columns.contains kv.1) = true →
       normalize_columns df
         = .ok ⟨simple_cols,
             (upperCols df).rows.map
               (fun r => ch_col_map.map (fun kv => (kv.2, lookupCell r kv.1)))⟩) ∧
    (ch_col_map.all (fun kv => (upperCols df).columns.contains kv.1) = false →
     simple_cols.all (fun c => (upperCols df).columns.contains c) = true →
       normalize_columns df
         = .ok ⟨simple_cols,
             (upperCols df).rows.map
               (fun r => simple_cols.map (fun c => (c, lookupCell r c)))⟩) ∧
    (ch_col_map.all (fun kv => (upperCols df).columns.contains kv.1) = false →
     simple_cols.all (fun c => (upperCols df).columns.contains c) = false →
       normalize_columns df
         = .error ⟨500, "Unexpected data format received from NSE. Columns: "
             ++ toString (upperCols df).columns⟩) := by
  refine ⟨fun hA => ?_, fun hA hB => ?_, fun hA hB => ?_⟩
  · unfold normalize_columns
    rw [if_pos hA]
    congr 1
    simp only [renameCols, project, List.map_map]
    rfl
  · unfold normalize_columns
    rw [if_neg (by rw [hA]; simp), if_pos hB]
    rfl
  · unfold normalize_columns
    rw [if_neg (by rw [hA]; simp), if_neg (by rw [hB]; simp)]

/-- C6 witnessed on rows with neither layout: the failure names the columns. -/
theorem C6_witness :
    normalize_columns ⟨["FOO", "bar"], []⟩
      = .error ⟨500, "Unexpected data format received from NSE. Columns: [FOO, BAR]"⟩ :=
  (C6_normalize_layouts ⟨["FOO", "bar"], []⟩).2.2 (by decide) (by decide)

/-- C7 counterexample: an empty symbol is not rejected — the request proceeds
to the upstream fetch and succeeds (with an empty SYMBOL field) instead of
failing with InvalidRequest. -/
theorem C7_counterexample_empty_symbol_accepted :
    (get_stock_data [] (.ok (some dfOne)) fmtOk .disabled "" 1 2 false).result
      = .ok [⟨"1", "", "10", "11", "9", "10", "100"⟩] ∧
    (get_stock_data [] (.ok (some dfOne)) fmtOk .disabled "" 1 2 false).fetches = 1 :=
  ⟨by decide, rfl⟩

/-- C7 amended: the symbol is uppercased before any further processing — the
outcome of either route depends on the symbol only through its uppercase
form — but an empty symbol is not rejected: with a valid date range and no
F&O restriction the request proceeds to the upstream fetch like any other. -/
theorem C7_amended_symbol_uppercased :
    (∀ fs fr fmt cache s1 s2 fd td fo, pyUpper s1 = pyUpper s2 →
       get_stock_data fs fr fmt cache s1 fd td fo
         = get_stock_data fs fr fmt cache s2 fd td fo) ∧
    (∀ fr fmt s1 s2 fd td, pyUpper s1 = pyUpper s2 →
       get_index_data fr fmt s1 fd td = get_index_data fr fmt s2 fd td) ∧
    (∀ fs fr fmt fd td, ¬ fd > td →
       (get_stock_data fs fr fmt .disabled "" fd td false).fetches = 1) := by
  refine ⟨fun fs fr fmt cache s1 s2 fd td fo h => ?_,
    fun fr fmt s1 s2 fd td h => ?_, fun fs fr fmt fd td h => ?_⟩
  · unfold get_stock_data
    rw [h]
  · unfold get_index_data
    rw [h]
  · unfold get_stock_data
    rw [if_neg h, if_neg (by simp)]
    rfl

/-- C7 amended, witnessed: an empty symbol with valid dates reaches the
upstream fetch. -/
theorem C7_amended_witness :
    (get_stock_data [] (.ok none) fmtOk .disabled "" 1 2 false).fetches = 1 :=
  C7_amended_symbol_uppercased.2.2 [] (.ok none) fmtOk 1 2 (by decide)


/-- C8 (the code, evaluated at the failing input): the fall-through logic
for a corrupt cache entry (lines 109-113) is unreachable — with a live
collection holding a corrupt document for the requested key, the request
dies at the truth-value test of line 103, with zero fetches and the 500 the
framework makes of the escaped `NotImplementedError`, instead of falling
through to a fresh fetch. -/
theorem C8_corrupt_entry_unreachable :
    get_stock_data [] (.ok (some dfOne)) fmtOk
        (.enabled [⟨"INFY", "1", "2", .corrupt "zz"⟩]) "INFY" 1 2 false
      = ⟨.error (.other collection_bool_msg), 0, 0, 0,
         [⟨"INFY", "1", "2", .corrupt "zz"⟩]⟩ := by decide

/-- C9 (the code, evaluated at the failing input): no cache hit can ever be
served — with a live collection holding a deserializable document for the
exact requested key, the request dies at the truth-value test of line 103
before `find_one`, returning no records rather than the stored ones (the
upstream oracle here would even have succeeded). -/
theorem C9_cache_hit_unreachable :
    get_stock_data [] (.ok (some dfOne)) fmtOk
        (.enabled [⟨"INFY", "1", "2",
            .records [⟨"1", "INFY", "10", "11", "9", "10", "100"⟩]⟩])
        "INFY" 1 2 false
      = ⟨.error (.other collection_bool_msg), 0, 0, 0,
         [⟨"INFY", "1", "2",
            .records [⟨"1", "INFY", "10", "11", "9", "10", "100"⟩]⟩]⟩ := by decide

/-- C10 counterexample: a corrupt entry does not lead to a second document —
the request with a configured cache fails before the fetch block, performs
zero `insert_one` calls, and leaves the store holding exactly the original
corrupt document. -/
theorem C10_counterexample_no_second_document :
    (get_stock_data [] (.ok (some dfOne)) fmtOk
        (.enabled [⟨"INFY", "1", "2", .corrupt "zz"⟩]) "INFY" 1 2 false).cacheDocs
      = [⟨"INFY", "1", "2", .corrupt "zz"⟩] ∧
    (get_stock_data [] (.ok (some dfOne)) fmtOk
        (.enabled [⟨"INFY", "1", "2", .corrupt "zz"⟩]) "INFY" 1 2 false).cacheWrites
      = 0 :=
  ⟨by decide, by decide⟩

/-- C10 amended: no request ever modifies, deletes, or even adds a cache
document — the `insert_one` call is unreachable (with no cache the write is
skipped; with a configured cache the request fails at the truth-value test
before the fetch block), so every call leaves the store exactly as it found
it, with zero cache writes. -/
theorem C10_amended_store_never_changed :
    ∀ fs fr fmt cache s fd td fo,
      (get_stock_data fs fr fmt cache s fd td fo).cacheDocs = cache.docs ∧
      (get_stock_data fs fr fmt cache s fd td fo).cacheWrites = 0 :=
  fun fs fr fmt cache s fd td fo =>
    get_stock_data_store_unchanged fs fr fmt cache s fd td fo

/-- C1 (the code, evaluated at the failing input): when the upstream returns
zero rows, the 404 raised inside the `try:` block is caught by the blanket
`except Exception` handler and re-raised as a 500 wrapping `str(e)`; an
upstream fetch error is likewise a 500 — so the empty-result outcome reaches
the caller with the same 500 status as an upstream error, not as a distinct
404. -/
theorem C1_empty_result_wrapped_to_500 :
    (get_stock_data [] (.ok (some ⟨simple_cols, []⟩)) fmtOk .disabled
        "INFY" 1 2 false).result
      = .error (.http ⟨500,
          "Error fetching stock data: 404: No data found for INFY between 1 and 2"⟩) ∧
    (get_stock_data [] (.error (.other "connection reset")) fmtOk .disabled
        "INFY" 1 2 false).result
      = .error (.http ⟨500, "Error fetching stock data: connection reset"⟩) :=
  ⟨by decide, by decide⟩


end Jugaad
